import Mathlib

/-!
Verification of the filtering-and-presentation pipeline of `src/Table12.py`
(Costa del Sol property viewer).  The script loads a CSV of listings, derives
filter-control defaults from column minima/maxima, applies a conjunction of
range / membership / tri-state filters, sorts by `propertyCode` descending,
formats display columns and serializes the result to HTML with
`to_html(escape=False)`.

Modelling conventions:
* a dataframe row is `Row`; the dataframe is a `List Row` in file order;
* CSV numeric columns are `ℚ` (Python floats, modelled exactly);
* Python `int(x)` is truncation toward zero (`Int.tdiv` on `num/den`);
* Python `round(x, 1)` and numpy `.round(0)` are round-half-to-even,
  modelled exactly on `ℚ`;
* `pandas.Series.min()/max()` on an empty column yields NaN and the
  subsequent `int(...)` raises `ValueError: cannot convert float NaN to
  integer`; this is modelled by `deriveDefaults` returning `Except.error`;
* `df.sort_values(by='propertyCode', ascending=False)` uses the default
  `kind='quicksort'` (numpy introsort), so the source orders the rows by
  code descending but does NOT guarantee any particular relative order for
  rows with equal codes (introsort is unstable once a partition reaches 16
  elements).  The embedding's `sortDesc` is a descending insertion sort: it
  agrees with the source on the sorted order of codes and fixes one
  concrete tie order; no theorem below depends on the tie order chosen
  (the run-level statements are insensitive to which permutation of equal
  codes the sort emits), and no stability property of the source is
  claimed from this model;
* `sorted(data['propertyType'].unique())` feeds the widget's option list;
  only membership in that list reaches the filter logic, so the UI-only
  lexicographic ordering of `property_types` is not modelled;
* boolean mask indexing `data[mask]` copies, so the canonical dataset is
  threaded through `run` unchanged and returned as `Output.dataAfter`.
-/

namespace Table12

/-- One row of the loaded CSV, restricted to the columns the script reads. -/
structure Row where
  propertyCode : ℤ
  price : ℚ
  size : ℚ
  rooms : ℤ
  bathrooms : ℤ
  airport_distance : ℚ
  av_rent : ℚ
  roi : ℚ
  municipality : String
  propertyType : String
  url : String
  restaurants : ℤ
  hospitals : ℤ
  clinics : ℤ
  shops : ℤ
deriving DecidableEq, Repr

/-- The three values of each amenity `st.selectbox` (`'All' / 'Yes' / 'No'`). -/
inductive TriState where
  | All
  | Yes
  | No
deriving DecidableEq, Repr

/-- Current values of every sidebar control (one snapshot per render pass).
Price bounds are entered in thousands (`price_min_k`, `price_max_k`), the
ROI slider yields a pair of floats, multi-selects yield value lists. -/
structure FilterState where
  price_min_k : ℤ
  price_max_k : ℤ
  size_min : ℤ
  size_max : ℤ
  airport_distance_max : ℤ
  av_rent_min : ℤ
  av_rent_max : ℤ
  roi_lo : ℚ
  roi_hi : ℚ
  rooms_selected : List ℤ
  municipality_selected : List String
  property_type_selected : List String
  restaurants_filter : TriState
  hospitals_filter : TriState
  clinics_filter : TriState
  shops_filter : TriState
deriving DecidableEq, Repr

/-- Python `int(x)` on a float/rational: truncation toward zero. -/
def pyTrunc (q : ℚ) : ℤ :=
  Int.tdiv q.num (q.den : ℤ)

/-- Round to the nearest integer, halves to the even neighbour (the rounding
used by Python `round` and numpy `.round`). -/
def roundHalfEven (q : ℚ) : ℤ :=
  let f := ⌊q⌋
  let frac := q - (f : ℚ)
  if frac < 1/2 then f
  else if 1/2 < frac then f + 1
  else if f % 2 = 0 then f else f + 1

/-- Python `round(x, 1)`: one decimal digit, halves to even. -/
def round1 (q : ℚ) : ℚ :=
  ((roundHalfEven (q * 10) : ℤ) : ℚ) / 10

/-- Minimum of a nonempty bag of values, as `foldl min` (pandas `.min()`). -/
def foldlMin (a : ℚ) (l : List ℚ) : ℚ :=
  l.foldl min a

/-- Maximum of a nonempty bag of values, as `foldl max` (pandas `.max()`). -/
def foldlMax (a : ℚ) (l : List ℚ) : ℚ :=
  l.foldl max a

/-- Column minimum `data[col].min()` over the nonempty dataframe `r :: rs`. -/
def colMin (f : Row → ℚ) (r : Row) (rs : List Row) : ℚ :=
  foldlMin (f r) (rs.map f)

/-- Column maximum `data[col].max()` over the nonempty dataframe `r :: rs`. -/
def colMax (f : Row → ℚ) (r : Row) (rs : List Row) : ℚ :=
  foldlMax (f r) (rs.map f)

/-- The distinct property types present (`data['propertyType'].unique()`;
the source also sorts this list, but only for widget display). -/
def property_types (data : List Row) : List String :=
  (data.map (fun r => r.propertyType)).dedup

/-- The hard-coded desired default property types of the script. -/
def desired_defaults : List String :=
  ["flat", "penthouse", "studio"]

/-- The comprehension `[d for d in desired_defaults if d in property_types]`. -/
def valid_defaults (data : List Row) : List String :=
  desired_defaults.filter (fun d => decide (d ∈ property_types data))

/-- Derivation of every filter control's default value from the loaded data
(lines 46-148 of the source).  On an empty dataframe `data['price'].min()`
is NaN and `int(NaN / 1000)` raises `ValueError`, modelled as an error. -/
def deriveDefaults : List Row → Except String FilterState
  | [] => Except.error "cannot convert float NaN to integer"
  | r :: rs =>
      Except.ok
        { price_min_k := pyTrunc (colMin (fun x => x.price) r rs / 1000)
          price_max_k := pyTrunc (colMax (fun x => x.price) r rs / 1000)
          size_min := pyTrunc (colMin (fun x => x.size) r rs)
          size_max := pyTrunc (colMax (fun x => x.size) r rs)
          airport_distance_max := pyTrunc (colMax (fun x => x.airport_distance) r rs)
          av_rent_min := pyTrunc (colMin (fun x => x.av_rent) r rs)
          av_rent_max := pyTrunc (colMax (fun x => x.av_rent) r rs)
          roi_lo := round1 (colMin (fun x => x.roi) r rs)
          roi_hi := round1 (colMax (fun x => x.roi) r rs)
          rooms_selected := []
          municipality_selected := []
          property_type_selected := valid_defaults (r :: rs)
          restaurants_filter := TriState.All
          hospitals_filter := TriState.All
          clinics_filter := TriState.All
          shops_filter := TriState.All }

/-- The single boolean mask of source lines 151-161: all numeric range
conditions conjoined; the entered price bounds are multiplied by 1000. -/
def numericMask (fs : FilterState) (r : Row) : Bool :=
  decide ((fs.price_min_k : ℚ) * 1000 ≤ r.price) &&
  decide (r.price ≤ (fs.price_max_k : ℚ) * 1000) &&
  decide ((fs.size_min : ℚ) ≤ r.size) &&
  decide (r.size ≤ (fs.size_max : ℚ)) &&
  decide (r.airport_distance ≤ (fs.airport_distance_max : ℚ)) &&
  decide ((fs.av_rent_min : ℚ) ≤ r.av_rent) &&
  decide (r.av_rent ≤ (fs.av_rent_max : ℚ)) &&
  decide (fs.roi_lo ≤ r.roi) &&
  decide (r.roi ≤ fs.roi_hi)

/-- Guarded multi-select restriction: Python `if selected:` is only taken
for a non-empty selection, then `.isin(selected)` keeps members. -/
def applySel {α : Type} [DecidableEq α]
    (sel : List α) (key : Row → α) (d : List Row) : List Row :=
  if sel.isEmpty then d else d.filter (fun r => decide (key r ∈ sel))

/-- The row condition contributed by one multi-select filter. -/
def selMask {α : Type} [DecidableEq α] (sel : List α) (v : α) : Bool :=
  sel.isEmpty || decide (v ∈ sel)

/-- Tri-state amenity restriction: `if f != 'All': keep rows whose flag
equals (1 if f == 'Yes' else 0)`. -/
def applyTri (t : TriState) (flag : Row → ℤ) (d : List Row) : List Row :=
  if t = TriState.All then d
  else d.filter (fun r => decide (flag r = (if t = TriState.Yes then 1 else 0)))

/-- The row condition contributed by one tri-state amenity filter. -/
def triMask (t : TriState) (flag : ℤ) : Bool :=
  match t with
  | TriState.All => true
  | TriState.Yes => decide (flag = 1)
  | TriState.No => decide (flag = 0)

/-- The full filter pass of source lines 151-182: numeric mask, then the
three guarded multi-selects, then the four amenity selectboxes, applied
sequentially to fresh copies. -/
def applyFilters (data : List Row) (fs : FilterState) : List Row :=
  let d0 := data.filter (numericMask fs)
  let d1 := applySel fs.property_type_selected (fun r => r.propertyType) d0
  let d2 := applySel fs.rooms_selected (fun r => r.rooms) d1
  let d3 := applySel fs.municipality_selected (fun r => r.municipality) d2
  let d4 := applyTri fs.restaurants_filter (fun r => r.restaurants) d3
  let d5 := applyTri fs.hospitals_filter (fun r => r.hospitals) d4
  let d6 := applyTri fs.clinics_filter (fun r => r.clinics) d5
  applyTri fs.shops_filter (fun r => r.shops) d6

/-- Insertion step of the descending sort: `x` goes in front of the first
element whose code is at most `x`'s. -/
def insertDesc (x : Row) : List Row → List Row
  | [] => [x]
  | y :: ys =>
      if y.propertyCode ≤ x.propertyCode then x :: y :: ys
      else y :: insertDesc x ys

/-- The call `sort_values(by='propertyCode', ascending=False)` as a
descending insertion sort.  The source's default `kind='quicksort'` leaves
the relative order of equal codes unspecified; this definition fixes one
such order, and nothing proved from it depends on that choice (see the
header note). -/
def sortDesc : List Row → List Row
  | [] => []
  | x :: xs => insertDesc x (sortDesc xs)

/-- Function `format_amenity` of the source: a styled check mark for flag 1,
the empty string otherwise. -/
def format_amenity (value : ℤ) : String :=
  if value = 1 then "<span class=\"green-icon\">✔</span>" else ""

/-- The clickable link cell built from the raw `url` column. -/
def mkLink (url : String) : String :=
  "<a href=\"" ++ url ++ "\" target=\"_blank\">View</a>"

/-- Digits of a number grouped in threes (input is the reversed digit
list, so grouping starts at the least significant digit). -/
def groupThree : List Char → List (List Char)
  | [] => []
  | a :: b :: c :: rest => [a, b, c] :: groupThree rest
  | l => [l]

/-- Python `f"{int(x):,}".replace(",", " ")`: thousands separated by a
space character. -/
def formatThousands (n : ℤ) : String :=
  let s := (toString n.natAbs).toList
  let groups := (groupThree s.reverse).reverse.map List.reverse
  (if n < 0 then "-" else "") ++ String.mk (List.intercalate [' '] groups)

/-- Python `f"{x:.1f}"`: fixed-point rendering with exactly one decimal
digit, halves to even. -/
def formatOneDec (q : ℚ) : String :=
  let n := roundHalfEven (q * 10)
  (if n < 0 then "-" else "") ++
    toString (n.natAbs / 10) ++ "." ++ toString (n.natAbs % 10)

/-- One row of `filtered_data_display` after the per-column formatting of
source lines 184-212 (column order of `columns_to_display`). -/
structure DisplayRow where
  roi : String
  price : String
  size : ℤ
  rooms : ℤ
  bathrooms : ℤ
  restaurantsMark : String
  shopsMark : String
  av_rent : ℤ
  airport_distance : ℤ
  municipality : String
  link : String
  propertyCode : ℤ
deriving DecidableEq, Repr

/-- All display transforms of one row: amenity marks, link anchor, price
with space-separated thousands, truncated size and rent, ROI at one
decimal with a trailing `%`, airport distance rounded to zero decimals. -/
def formatRow (r : Row) : DisplayRow :=
  { roi := formatOneDec r.roi ++ " %"
    price := formatThousands (pyTrunc r.price)
    size := pyTrunc r.size
    rooms := r.rooms
    bathrooms := r.bathrooms
    restaurantsMark := format_amenity r.restaurants
    shopsMark := format_amenity r.shops
    av_rent := pyTrunc r.av_rent
    airport_distance := roundHalfEven r.airport_distance
    municipality := r.municipality
    link := mkLink r.url
    propertyCode := r.propertyCode }

/-- Cell serialization under `to_html(escape=False)`: the cell text is
embedded verbatim, nothing is escaped. -/
def serializeCell (s : String) : String :=
  s

/-- One `<td>` cell of the serialized table. -/
def td (s : String) : String :=
  "<td>" ++ serializeCell s ++ "</td>"

/-- One `<tr>` of the table body, cells in `columns_to_display` order. -/
def rowHtml (d : DisplayRow) : String :=
  "<tr>" ++ td d.roi ++ td d.price ++ td (toString d.size) ++
    td (toString d.rooms) ++ td (toString d.bathrooms) ++
    td d.restaurantsMark ++ td d.shopsMark ++ td (toString d.av_rent) ++
    td (toString d.airport_distance) ++ td d.municipality ++ td d.link ++
    td (toString d.propertyCode) ++ "</tr>"

/-- The renamed column headers of source lines 215-229 (raw HTML spans). -/
def headerCells : List String :=
  ["<span title=\"Estimated Return on Investment\">ROI</span>",
   "<span title=\"Total price for apartment in €\">Price</span>",
   "<span title=\"Size in m²\">Size</span>",
   "<span title=\"Rooms\">🛏</span>",
   "<span title=\"Bathrooms\">🛁</span>",
   "<span title=\"Restaurants\">🍽</span>",
   "<span title=\"Shops\">🛒</span>",
   "<span title=\"Expected average daily rent in €\">Rent</span>",
   "<span title=\"Airport Distance\">✈</span>",
   "<span title=\"Municipality\">Municipality</span>",
   "<span title=\"Get to original advertisement\">Link</span>",
   "<span title=\"Unique code of idealista.com\">Code</span>"]

/-- Serialization `to_html(escape=False, index=False)` followed by the `<thead>`
restyling of source line 237: header row plus one `<tr>` per data row. -/
def renderTable (rows : List DisplayRow) : String :=
  "<table border=\"1\" class=\"dataframe\"><thead style='text-align:center'><tr>" ++
    String.join (headerCells.map (fun h => "<th>" ++ h ++ "</th>")) ++
    "</tr></thead><tbody>" ++ String.join (rows.map rowHtml) ++
    "</tbody></table>"

/-- Everything one render pass produces, together with the final value of
the canonical `data` variable (which no step reassigns or mutates). -/
structure Output where
  dataAfter : List Row
  displayFrame : List DisplayRow
  resultCount : ℕ
  resultMsg : String
  tableHtml : String
deriving DecidableEq, Repr

/-- One full evaluation pass over the already-loaded dataset: filter
(lines 151-182), sort (line 193), format (lines 184-212), count
(lines 233-234) and serialize (lines 236-239). -/
def run (data : List Row) (fs : FilterState) : Output :=
  let filtered_data := applyFilters data fs
  let sorted := sortDesc filtered_data
  let display := sorted.map formatRow
  let result_count := display.length
  { dataAfter := data
    displayFrame := display
    resultCount := result_count
    resultMsg := "Found " ++ toString result_count ++ " properties matching the criteria."
    tableHtml := renderTable display }

/-- HTML escaping as Python `html.escape` would perform it.  The script
never calls this (it passes `escape=False`); the definition only states
what the spec's escaping requirement would mean, for comparison. -/
def htmlEscape (s : String) : String :=
  String.join (s.toList.map (fun c =>
    if c = '&' then "&amp;"
    else if c = '<' then "&lt;"
    else if c = '>' then "&gt;"
    else if c = '"' then "&quot;"
    else String.mk [c]))

/-- Relation `Tightening A B`: `B` is `A` with exactly one additional non-default
restriction — one range bound tightened, one previously empty multi-select
made non-empty, or one amenity tri-state moved off `All`. -/
inductive Tightening (A : FilterState) : FilterState → Prop where
  | price_min (v : ℤ) (h : A.price_min_k ≤ v) :
      Tightening A { A with price_min_k := v }
  | price_max (v : ℤ) (h : v ≤ A.price_max_k) :
      Tightening A { A with price_max_k := v }
  | size_min (v : ℤ) (h : A.size_min ≤ v) :
      Tightening A { A with size_min := v }
  | size_max (v : ℤ) (h : v ≤ A.size_max) :
      Tightening A { A with size_max := v }
  | airport (v : ℤ) (h : v ≤ A.airport_distance_max) :
      Tightening A { A with airport_distance_max := v }
  | rent_min (v : ℤ) (h : A.av_rent_min ≤ v) :
      Tightening A { A with av_rent_min := v }
  | rent_max (v : ℤ) (h : v ≤ A.av_rent_max) :
      Tightening A { A with av_rent_max := v }
  | roi_lo (v : ℚ) (h : A.roi_lo ≤ v) :
      Tightening A { A with roi_lo := v }
  | roi_hi (v : ℚ) (h : v ≤ A.roi_hi) :
      Tightening A { A with roi_hi := v }
  | rooms (s : List ℤ) (h : A.rooms_selected = []) :
      Tightening A { A with rooms_selected := s }
  | municipality (s : List String) (h : A.municipality_selected = []) :
      Tightening A { A with municipality_selected := s }
  | property_type (s : List String) (h : A.property_type_selected = []) :
      Tightening A { A with property_type_selected := s }
  | restaurants (t : TriState) (h : A.restaurants_filter = TriState.All) :
      Tightening A { A with restaurants_filter := t }
  | hospitals (t : TriState) (h : A.hospitals_filter = TriState.All) :
      Tightening A { A with hospitals_filter := t }
  | clinics (t : TriState) (h : A.clinics_filter = TriState.All) :
      Tightening A { A with clinics_filter := t }
  | shops (t : TriState) (h : A.shops_filter = TriState.All) :
      Tightening A { A with shops_filter := t }

/-- Integrality conditions under which the truncated / rounded default
bounds derived by the script coincide exactly with the column extrema:
prices are nonnegative multiples of 1000 (the price inputs are in k€ and
clamped at 0), sizes, rents and airport distances are nonnegative
integers, and ROI values are multiples of 0.1. -/
def IntegerFriendly (r : Row) : Prop :=
  r.price.den = 1 ∧ (1000 : ℤ) ∣ r.price.num ∧ 0 ≤ r.price ∧
  r.size.den = 1 ∧ 0 ≤ r.size ∧
  r.airport_distance.den = 1 ∧ 0 ≤ r.airport_distance ∧
  r.av_rent.den = 1 ∧ 0 ≤ r.av_rent ∧
  (r.roi * 10).den = 1

/-! ### Concrete fixtures used by counterexamples and witnesses -/

/-- A single listing whose stored ROI value is 0.0821 — the raw-fraction
ROI of the spec's formatting example. -/
def rowROI : Row :=
  { propertyCode := 1
    price := 100000
    size := 80
    rooms := 2
    bathrooms := 1
    airport_distance := 10
    av_rent := 50
    roi := 821/10000
    municipality := "Marbella"
    propertyType := "flat"
    url := "http://example.com/1"
    restaurants := 1
    hospitals := 0
    clinics := 0
    shops := 1 }

/-- A fully permissive filter state (wide ranges, no selections, all
amenity filters at `All`). -/
def fsOpen : FilterState :=
  { price_min_k := 0
    price_max_k := 1000000
    size_min := 0
    size_max := 1000000
    airport_distance_max := 1000000
    av_rent_min := 0
    av_rent_max := 1000000
    roi_lo := -1000
    roi_hi := 1000
    rooms_selected := []
    municipality_selected := []
    property_type_selected := []
    restaurants_filter := TriState.All
    hospitals_filter := TriState.All
    clinics_filter := TriState.All
    shops_filter := TriState.All }

/-- The permissive filter state with inverted price bounds
`price_min = 10000 (k€), price_max = 0 (k€)`. -/
def fs7 : FilterState :=
  { fsOpen with price_min_k := 10000, price_max_k := 0 }

/-- A listing of property type `flat` with integer-friendly numerics. -/
def flatRow : Row :=
  { propertyCode := 1
    price := 100000
    size := 80
    rooms := 2
    bathrooms := 1
    airport_distance := 10
    av_rent := 50
    roi := 5
    municipality := "Estepona"
    propertyType := "flat"
    url := "http://example.com/f"
    restaurants := 1
    hospitals := 1
    clinics := 1
    shops := 1 }

/-- A listing of property type `house` with integer-friendly numerics. -/
def houseRow : Row :=
  { propertyCode := 2
    price := 200000
    size := 120
    rooms := 4
    bathrooms := 2
    airport_distance := 12
    av_rent := 60
    roi := 6
    municipality := "Mijas"
    propertyType := "house"
    url := "http://example.com/h"
    restaurants := 0
    hospitals := 0
    clinics := 0
    shops := 0 }

/-- A dataset whose distinct property types are exactly `{flat, house}`. -/
def twoTypeData : List Row :=
  [flatRow, houseRow]

/-- The filter state the script derives as default for `twoTypeData`. -/
def defaultFS2 : FilterState :=
  { price_min_k := 100
    price_max_k := 200
    size_min := 80
    size_max := 120
    airport_distance_max := 12
    av_rent_min := 50
    av_rent_max := 60
    roi_lo := 5
    roi_hi := 6
    rooms_selected := []
    municipality_selected := []
    property_type_selected := ["flat"]
    restaurants_filter := TriState.All
    hospitals_filter := TriState.All
    clinics_filter := TriState.All
    shops_filter := TriState.All }

/-- A listing whose municipality cell carries HTML markup. -/
def htmlRow : Row :=
  { rowROI with municipality := "<b>x</b>" }

/-! ### Membership in the filter pipeline -/

/-- Spelled-out meaning of the conjunctive numeric mask. -/
theorem numericMask_iff (fs : FilterState) (r : Row) :
    numericMask fs r = true ↔
      ((fs.price_min_k : ℚ) * 1000 ≤ r.price ∧
       r.price ≤ (fs.price_max_k : ℚ) * 1000 ∧
       (fs.size_min : ℚ) ≤ r.size ∧
       r.size ≤ (fs.size_max : ℚ) ∧
       r.airport_distance ≤ (fs.airport_distance_max : ℚ) ∧
       (fs.av_rent_min : ℚ) ≤ r.av_rent ∧
       r.av_rent ≤ (fs.av_rent_max : ℚ) ∧
       fs.roi_lo ≤ r.roi ∧
       r.roi ≤ fs.roi_hi) := by
  simp [numericMask, Bool.and_eq_true, decide_eq_true_eq, and_assoc]

theorem mem_applySel {α : Type} [DecidableEq α] {sel : List α} {key : Row → α}
    {d : List Row} {r : Row} :
    r ∈ applySel sel key d ↔ r ∈ d ∧ selMask sel (key r) = true := by
  unfold applySel selMask
  by_cases h : sel.isEmpty <;> simp [h, List.mem_filter]

theorem mem_applyTri {t : TriState} {flag : Row → ℤ} {d : List Row} {r : Row} :
    r ∈ applyTri t flag d ↔ r ∈ d ∧ triMask t (flag r) = true := by
  cases t <;> simp [applyTri, triMask, List.mem_filter]

/-- A row survives the whole filter pass iff it is in the data and meets
every individual filter condition. -/
theorem mem_applyFilters {data : List Row} {fs : FilterState} {r : Row} :
    r ∈ applyFilters data fs ↔
      r ∈ data ∧ numericMask fs r = true ∧
      selMask fs.property_type_selected r.propertyType = true ∧
      selMask fs.rooms_selected r.rooms = true ∧
      selMask fs.municipality_selected r.municipality = true ∧
      triMask fs.restaurants_filter r.restaurants = true ∧
      triMask fs.hospitals_filter r.hospitals = true ∧
      triMask fs.clinics_filter r.clinics = true ∧
      triMask fs.shops_filter r.shops = true := by
  simp only [applyFilters, mem_applyTri, mem_applySel, List.mem_filter]
  tauto

/-! ### The descending sort -/

theorem mem_insertDesc {x y : Row} : ∀ {l : List Row},
    y ∈ insertDesc x l ↔ y = x ∨ y ∈ l := by
  intro l
  induction l with
  | nil => simp [insertDesc]
  | cons a t ih =>
      by_cases hc : a.propertyCode ≤ x.propertyCode
      · simp [insertDesc, if_pos hc, List.mem_cons]
      · simp [insertDesc, if_neg hc, List.mem_cons, ih]
        tauto

theorem mem_sortDesc {y : Row} : ∀ {l : List Row}, y ∈ sortDesc l ↔ y ∈ l := by
  intro l
  induction l with
  | nil => simp [sortDesc]
  | cons x xs ih => simp [sortDesc, mem_insertDesc, ih, List.mem_cons]

/-! ### Exactness of the default-derivation arithmetic on integer-valued data -/

theorem intCast_of_den_one (q : ℚ) (h : q.den = 1) : ((q.num : ℤ) : ℚ) = q := by
  conv_rhs => rw [← Rat.num_div_den q]
  rw [h]
  simp

theorem pyTrunc_intCast (k : ℤ) : pyTrunc ((k : ℤ) : ℚ) = k := by
  unfold pyTrunc
  rw [Rat.num_intCast, Rat.den_intCast]
  exact_mod_cast Int.tdiv_one k

theorem pyTrunc_den_one (q : ℚ) (h : q.den = 1) : ((pyTrunc q : ℤ) : ℚ) = q := by
  have : pyTrunc q = q.num := by
    unfold pyTrunc
    rw [h]
    exact_mod_cast Int.tdiv_one q.num
  rw [this, intCast_of_den_one q h]

theorem roundHalfEven_intCast (k : ℤ) : roundHalfEven ((k : ℤ) : ℚ) = k := by
  unfold roundHalfEven
  rw [Int.floor_intCast]
  norm_num

theorem round1_den_one (q : ℚ) (h : (q * 10).den = 1) : round1 q = q := by
  unfold round1
  have h1 : (((q * 10).num : ℤ) : ℚ) = q * 10 := intCast_of_den_one _ h
  rw [← h1, roundHalfEven_intCast, h1]
  field_simp

theorem pyTrunc_div1000 (q : ℚ) (h1 : q.den = 1) (h2 : (1000 : ℤ) ∣ q.num) :
    ((pyTrunc (q / 1000) : ℤ) : ℚ) * 1000 = q := by
  obtain ⟨k, hk⟩ := h2
  have hq : q = ((1000 * k : ℤ) : ℚ) := by
    rw [← hk]
    exact (intCast_of_den_one q h1).symm
  have hdiv : (((1000 * k : ℤ) : ℚ)) / 1000 = ((k : ℤ) : ℚ) := by
    push_cast
    ring
  rw [hq, hdiv, pyTrunc_intCast]
  push_cast
  ring

/-! ### Column minima and maxima -/

theorem foldlMin_le (l : List ℚ) : ∀ (a : ℚ),
    foldlMin a l ≤ a ∧ ∀ x ∈ l, foldlMin a l ≤ x := by
  induction l with
  | nil =>
      intro a
      exact ⟨le_refl a, by simp⟩
  | cons b t ih =>
      intro a
      refine ⟨le_trans (ih (min a b)).1 (min_le_left a b), ?_⟩
      intro x hx
      rcases List.mem_cons.mp hx with rfl | hxt
      · exact le_trans (ih (min a x)).1 (min_le_right a x)
      · exact (ih (min a b)).2 x hxt

theorem foldlMin_mem (l : List ℚ) : ∀ (a : ℚ),
    foldlMin a l = a ∨ foldlMin a l ∈ l := by
  induction l with
  | nil =>
      intro a
      exact Or.inl rfl
  | cons b t ih =>
      intro a
      rcases ih (min a b) with h | h
      · rcases min_choice a b with h2 | h2
        · exact Or.inl (h.trans h2)
        · exact Or.inr (by rw [show foldlMin a (b :: t) = b from h.trans h2]; exact List.mem_cons_self b t)
      · exact Or.inr (List.mem_cons_of_mem b h)

theorem foldlMax_ge (l : List ℚ) : ∀ (a : ℚ),
    a ≤ foldlMax a l ∧ ∀ x ∈ l, x ≤ foldlMax a l := by
  induction l with
  | nil =>
      intro a
      exact ⟨le_refl a, by simp⟩
  | cons b t ih =>
      intro a
      refine ⟨le_trans (le_max_left a b) (ih (max a b)).1, ?_⟩
      intro x hx
      rcases List.mem_cons.mp hx with rfl | hxt
      · exact le_trans (le_max_right a x) (ih (max a x)).1
      · exact (ih (max a b)).2 x hxt

theorem foldlMax_mem (l : List ℚ) : ∀ (a : ℚ),
    foldlMax a l = a ∨ foldlMax a l ∈ l := by
  induction l with
  | nil =>
      intro a
      exact Or.inl rfl
  | cons b t ih =>
      intro a
      rcases ih (max a b) with h | h
      · rcases max_choice a b with h2 | h2
        · exact Or.inl (h.trans h2)
        · exact Or.inr (by rw [show foldlMax a (b :: t) = b from h.trans h2]; exact List.mem_cons_self b t)
      · exact Or.inr (List.mem_cons_of_mem b h)

theorem colMin_le (f : Row → ℚ) (r : Row) (rs : List Row) :
    ∀ x ∈ r :: rs, colMin f r rs ≤ f x := by
  intro x hx
  rcases List.mem_cons.mp hx with rfl | hxt
  · exact (foldlMin_le (rs.map f) (f x)).1
  · exact (foldlMin_le (rs.map f) (f r)).2 (f x) (List.mem_map.mpr ⟨x, hxt, rfl⟩)

theorem colMin_mem (f : Row → ℚ) (r : Row) (rs : List Row) :
    ∃ x ∈ r :: rs, colMin f r rs = f x := by
  rcases foldlMin_mem (rs.map f) (f r) with h | h
  · exact ⟨r, List.mem_cons_self r rs, h⟩
  · obtain ⟨x, hxt, hfx⟩ := List.mem_map.mp h
    exact ⟨x, List.mem_cons_of_mem r hxt, hfx.symm⟩

theorem colMax_ge (f : Row → ℚ) (r : Row) (rs : List Row) :
    ∀ x ∈ r :: rs, f x ≤ colMax f r rs := by
  intro x hx
  rcases List.mem_cons.mp hx with rfl | hxt
  · exact (foldlMax_ge (rs.map f) (f x)).1
  · exact (foldlMax_ge (rs.map f) (f r)).2 (f x) (List.mem_map.mpr ⟨x, hxt, rfl⟩)

theorem colMax_mem (f : Row → ℚ) (r : Row) (rs : List Row) :
    ∃ x ∈ r :: rs, colMax f r rs = f x := by
  rcases foldlMax_mem (rs.map f) (f r) with h | h
  · exact ⟨r, List.mem_cons_self r rs, h⟩
  · obtain ⟨x, hxt, hfx⟩ := List.mem_map.mp h
    exact ⟨x, List.mem_cons_of_mem r hxt, hfx.symm⟩

/-! ### Projections of one render pass -/

theorem run_displayFrame (data : List Row) (fs : FilterState) :
    (run data fs).displayFrame = (sortDesc (applyFilters data fs)).map formatRow :=
  rfl

theorem run_resultCount (data : List Row) (fs : FilterState) :
    (run data fs).resultCount = ((sortDesc (applyFilters data fs)).map formatRow).length :=
  rfl

theorem run_resultMsg (data : List Row) (fs : FilterState) :
    (run data fs).resultMsg =
      "Found " ++ toString (run data fs).resultCount ++ " properties matching the criteria." :=
  rfl

theorem run_tableHtml (data : List Row) (fs : FilterState) :
    (run data fs).tableHtml = renderTable ((run data fs).displayFrame) :=
  rfl

theorem applySel_nil {α : Type} [DecidableEq α] (sel : List α) (key : Row → α) :
    applySel sel key [] = [] := by
  unfold applySel
  split <;> rfl

theorem applyTri_nil (t : TriState) (flag : Row → ℤ) :
    applyTri t flag [] = [] := by
  unfold applyTri
  split <;> rfl

/-- When no multi-select is active and all amenity filters are `All`, the
filter pass is just the numeric mask. -/
theorem applyFilters_no_sel (data : List Row) (fs : FilterState)
    (h1 : fs.property_type_selected = []) (h2 : fs.rooms_selected = [])
    (h3 : fs.municipality_selected = []) (h4 : fs.restaurants_filter = TriState.All)
    (h5 : fs.hospitals_filter = TriState.All) (h6 : fs.clinics_filter = TriState.All)
    (h7 : fs.shops_filter = TriState.All) :
    applyFilters data fs = data.filter (numericMask fs) := by
  simp [applyFilters, applySel, applyTri, h1, h2, h3, h4, h5, h6, h7]

theorem applySel_eq_filter {α : Type} [DecidableEq α] (sel : List α)
    (key : Row → α) (d : List Row) :
    applySel sel key d = d.filter (fun r => selMask sel (key r)) := by
  unfold applySel selMask
  by_cases h : sel.isEmpty = true <;> simp [h]

theorem numericMask_fsOpen_rowROI : numericMask fsOpen rowROI = true := by
  rw [numericMask_iff]
  norm_num [fsOpen, rowROI]

theorem numericMask_fsOpen_htmlRow : numericMask fsOpen htmlRow = true := by
  rw [numericMask_iff]
  norm_num [fsOpen, htmlRow, rowROI]

/-- Evaluation of one render pass over a single row that passes the open
filter state's numeric mask. -/
theorem run_single_fsOpen (r : Row) (h : numericMask fsOpen r = true) :
    (run [r] fsOpen).displayFrame = [formatRow r] := by
  have hf : applyFilters [r] fsOpen = [r] := by
    rw [applyFilters_no_sel [r] fsOpen rfl rfl rfl rfl rfl rfl rfl]
    simp [List.filter_cons, h]
  rw [run_displayFrame, hf]
  rfl

/-! ### The claims -/

/-- C5: adding one non-default restriction to a filter state can only
shrink the produced row set. -/
theorem C5_conjunction_monotonicity (data : List Row) (A B : FilterState)
    (ht : Tightening A B) (r : Row) (hr : r ∈ applyFilters data B) :
    r ∈ applyFilters data A := by
  rw [mem_applyFilters] at hr ⊢
  obtain ⟨hd, hn, hpt, hro, hmu, h1, h2, h3, h4⟩ := hr
  cases ht with
  | price_min v h =>
      refine ⟨hd, ?_, hpt, hro, hmu, h1, h2, h3, h4⟩
      rw [numericMask_iff] at hn ⊢
      obtain ⟨p1, prest⟩ := hn
      refine ⟨?_, prest⟩
      have hv : ((A.price_min_k : ℤ) : ℚ) ≤ ((v : ℤ) : ℚ) := by exact_mod_cast h
      exact le_trans (mul_le_mul_of_nonneg_right hv (by norm_num)) p1
  | price_max v h =>
      refine ⟨hd, ?_, hpt, hro, hmu, h1, h2, h3, h4⟩
      rw [numericMask_iff] at hn ⊢
      obtain ⟨p1, p2, prest⟩ := hn
      refine ⟨p1, ?_, prest⟩
      have hv : ((v : ℤ) : ℚ) ≤ ((A.price_max_k : ℤ) : ℚ) := by exact_mod_cast h
      exact le_trans p2 (mul_le_mul_of_nonneg_right hv (by norm_num))
  | size_min v h =>
      refine ⟨hd, ?_, hpt, hro, hmu, h1, h2, h3, h4⟩
      rw [numericMask_iff] at hn ⊢
      obtain ⟨p1, p2, p3, prest⟩ := hn
      refine ⟨p1, p2, ?_, prest⟩
      exact le_trans (by exact_mod_cast h : ((A.size_min : ℤ) : ℚ) ≤ ((v : ℤ) : ℚ)) p3
  | size_max v h =>
      refine ⟨hd, ?_, hpt, hro, hmu, h1, h2, h3, h4⟩
      rw [numericMask_iff] at hn ⊢
      obtain ⟨p1, p2, p3, p4, prest⟩ := hn
      refine ⟨p1, p2, p3, ?_, prest⟩
      exact le_trans p4 (by exact_mod_cast h : ((v : ℤ) : ℚ) ≤ ((A.size_max : ℤ) : ℚ))
  | airport v h =>
      refine ⟨hd, ?_, hpt, hro, hmu, h1, h2, h3, h4⟩
      rw [numericMask_iff] at hn ⊢
      obtain ⟨p1, p2, p3, p4, p5, prest⟩ := hn
      refine ⟨p1, p2, p3, p4, ?_, prest⟩
      exact le_trans p5
        (by exact_mod_cast h : ((v : ℤ) : ℚ) ≤ ((A.airport_distance_max : ℤ) : ℚ))
  | rent_min v h =>
      refine ⟨hd, ?_, hpt, hro, hmu, h1, h2, h3, h4⟩
      rw [numericMask_iff] at hn ⊢
      obtain ⟨p1, p2, p3, p4, p5, p6, prest⟩ := hn
      refine ⟨p1, p2, p3, p4, p5, ?_, prest⟩
      exact le_trans (by exact_mod_cast h : ((A.av_rent_min : ℤ) : ℚ) ≤ ((v : ℤ) : ℚ)) p6
  | rent_max v h =>
      refine ⟨hd, ?_, hpt, hro, hmu, h1, h2, h3, h4⟩
      rw [numericMask_iff] at hn ⊢
      obtain ⟨p1, p2, p3, p4, p5, p6, p7, prest⟩ := hn
      refine ⟨p1, p2, p3, p4, p5, p6, ?_, prest⟩
      exact le_trans p7 (by exact_mod_cast h : ((v : ℤ) : ℚ) ≤ ((A.av_rent_max : ℤ) : ℚ))
  | roi_lo v h =>
      refine ⟨hd, ?_, hpt, hro, hmu, h1, h2, h3, h4⟩
      rw [numericMask_iff] at hn ⊢
      obtain ⟨p1, p2, p3, p4, p5, p6, p7, p8, p9⟩ := hn
      exact ⟨p1, p2, p3, p4, p5, p6, p7, le_trans h p8, p9⟩
  | roi_hi v h =>
      refine ⟨hd, ?_, hpt, hro, hmu, h1, h2, h3, h4⟩
      rw [numericMask_iff] at hn ⊢
      obtain ⟨p1, p2, p3, p4, p5, p6, p7, p8, p9⟩ := hn
      exact ⟨p1, p2, p3, p4, p5, p6, p7, p8, le_trans p9 h⟩
  | rooms s h =>
      refine ⟨hd, hn, hpt, ?_, hmu, h1, h2, h3, h4⟩
      rw [h]
      rfl
  | municipality s h =>
      refine ⟨hd, hn, hpt, hro, ?_, h1, h2, h3, h4⟩
      rw [h]
      rfl
  | property_type s h =>
      refine ⟨hd, hn, ?_, hro, hmu, h1, h2, h3, h4⟩
      rw [h]
      rfl
  | restaurants t h =>
      refine ⟨hd, hn, hpt, hro, hmu, ?_, h2, h3, h4⟩
      rw [h]
      rfl
  | hospitals t h =>
      refine ⟨hd, hn, hpt, hro, hmu, h1, ?_, h3, h4⟩
      rw [h]
      rfl
  | clinics t h =>
      refine ⟨hd, hn, hpt, hro, hmu, h1, h2, ?_, h4⟩
      rw [h]
      rfl
  | shops t h =>
      refine ⟨hd, hn, hpt, hro, hmu, h1, h2, h3, ?_⟩
      rw [h]
      rfl

/-- C5 witness: tightening the open state's price floor to 1 k€ still
keeps the sample row, exactly as the theorem instantiates. -/
theorem C5_conjunction_monotonicity_witness :
    Tightening fsOpen { fsOpen with price_min_k := 1 } ∧
      rowROI ∈ applyFilters [rowROI] fsOpen := by
  have ht : Tightening fsOpen { fsOpen with price_min_k := 1 } :=
    Tightening.price_min 1 (by norm_num [fsOpen])
  refine ⟨ht, C5_conjunction_monotonicity [rowROI] fsOpen _ ht rowROI ?_⟩
  rw [mem_applyFilters]
  refine ⟨List.mem_cons_self rowROI [], ?_, rfl, rfl, rfl, rfl, rfl, rfl, rfl⟩
  rw [numericMask_iff]
  norm_num [fsOpen, rowROI]

/-- C6: no evaluation pass mutates the canonical dataset, the same filter
state evaluated twice gives identical output, and successive evaluations
with different filter states are independent. -/
theorem C6_no_mutation_idempotent (data : List Row) (fsA fsB : FilterState) :
    (run data fsA).dataAfter = data ∧
    run ((run data fsA).dataAfter) fsA = run data fsA ∧
    run ((run data fsA).dataAfter) fsB = run data fsB :=
  ⟨rfl, rfl, rfl⟩

/-- C7: inverted price bounds (min 10000 k€, max 0 k€) make the numeric
mask unsatisfiable, so evaluation returns an empty frame and reports a
count of 0 — it is a normal result, not an error. -/
theorem C7_inverted_bounds_empty (data : List Row) (fs : FilterState)
    (hmin : fs.price_min_k = 10000) (hmax : fs.price_max_k = 0) :
    (run data fs).displayFrame = [] ∧ (run data fs).resultCount = 0 ∧
    (run data fs).resultMsg = "Found 0 properties matching the criteria." := by
  have hmask : ∀ r, numericMask fs r = false := by
    intro r
    have hne : ¬ (numericMask fs r = true) := by
      rw [numericMask_iff]
      rintro ⟨p1, p2, -⟩
      rw [hmin] at p1
      rw [hmax] at p2
      have := le_trans p1 p2
      norm_num at this
    exact Bool.eq_false_iff.mpr hne
  have hnil : data.filter (numericMask fs) = [] := by
    have hcg : data.filter (numericMask fs) = data.filter (fun _ => false) :=
      List.filter_congr (fun x _ => hmask x)
    rw [hcg]
    exact List.filter_false data
  have h0 : applyFilters data fs = [] := by
    simp [applyFilters, hnil, applySel_nil, applyTri_nil]
  have hcount : (run data fs).resultCount = 0 := by
    rw [run_resultCount, h0]
    rfl
  refine ⟨?_, hcount, ?_⟩
  · rw [run_displayFrame, h0]
    rfl
  · rw [run_resultMsg, hcount]
    rfl

/-- C7 witness: the inverted-bound state `fs7` on a one-row dataset. -/
theorem C7_inverted_bounds_empty_witness :
    fs7.price_min_k = 10000 ∧ fs7.price_max_k = 0 ∧
    ((run [rowROI] fs7).displayFrame = [] ∧ (run [rowROI] fs7).resultCount = 0 ∧
      (run [rowROI] fs7).resultMsg = "Found 0 properties matching the criteria.") :=
  ⟨rfl, rfl, C7_inverted_bounds_empty [rowROI] fs7 rfl rfl⟩

/-- C8: the default property-type selection is the members of
`[flat, penthouse, studio]` actually present among the data's property
types (absent ones silently dropped), and for a dataset with types
`{flat, house}` it is exactly `[flat]`. -/
theorem C8_property_type_default :
    (∀ (data : List Row) (s : String),
        s ∈ valid_defaults data ↔
          s ∈ desired_defaults ∧ ∃ r ∈ data, r.propertyType = s) ∧
    valid_defaults twoTypeData = ["flat"] := by
  constructor
  · intro data s
    simp only [valid_defaults, List.mem_filter, decide_eq_true_eq, property_types,
      List.mem_dedup, List.mem_map]
  · decide

/-- C9: on an empty dataset the numeric default derivation fails with the
`int(NaN)` conversion error instead of producing NaN bounds. -/
theorem C9_empty_dataset_fails :
    deriveDefaults ([] : List Row) =
      Except.error "cannot convert float NaN to integer" :=
  rfl

/-- C10: the integer in the results-count message equals the number of row
fragments serialized into the table body, and the table is rendered from
the same display frame the count was taken from. -/
theorem C10_count_matches_table (data : List Row) (fs : FilterState) :
    (run data fs).resultMsg =
      "Found " ++ toString (((run data fs).displayFrame.map rowHtml).length) ++
        " properties matching the criteria." ∧
    (run data fs).tableHtml = renderTable ((run data fs).displayFrame) := by
  constructor
  · rw [run_resultMsg]
    have h : (((run data fs).displayFrame.map rowHtml).length) = (run data fs).resultCount := by
      rw [List.length_map]
      rfl
    rw [h]
  · exact run_tableHtml data fs

/-- C1 counterexample: the pipeline renders a stored ROI value of 0.0821
as the string `"0.1 %"`, not `"8.2 %"` — the display applies no
multiplication by 100 (`f"{x:.1f} %"` on the raw stored value). -/
theorem C1_counterexample :
    (run [rowROI] fsOpen).displayFrame.map (fun d => d.roi) = ["0.1 %"] ∧
    ("0.1 %" : String) ≠ "8.2 %" := by
  constructor
  · rw [run_single_fsOpen rowROI numericMask_fsOpen_rowROI]
    have hr : roundHalfEven ((821/10000 : ℚ) * 10) = 1 := by
      unfold roundHalfEven
      norm_num
    have h : formatOneDec (821/10000 : ℚ) = "0.1" := by
      unfold formatOneDec
      rw [hr]
      rfl
    simp [formatRow, rowROI, h]
  · decide

/-- C1 (amended): every displayed ROI cell is the stored ROI value of some
data row rendered with one decimal place and a trailing ` %` — without any
multiplication by 100 (the data's ROI column is already on the scale the
ROI slider and display use). -/
theorem C1_roi_rendering (data : List Row) (fs : FilterState) (d : DisplayRow)
    (hd : d ∈ (run data fs).displayFrame) :
    ∃ r ∈ data, d.roi = formatOneDec r.roi ++ " %" := by
  rw [run_displayFrame] at hd
  obtain ⟨r, hr, rfl⟩ := List.mem_map.mp hd
  exact ⟨r, (mem_applyFilters.mp (mem_sortDesc.mp hr)).1, rfl⟩

/-- C1 witness: the amended statement instantiated on a one-row dataset. -/
theorem C1_roi_rendering_witness :
    ∃ r ∈ ([rowROI] : List Row),
      (formatRow rowROI).roi = formatOneDec r.roi ++ " %" := by
  apply C1_roi_rendering [rowROI] fsOpen (formatRow rowROI)
  rw [run_single_fsOpen rowROI numericMask_fsOpen_rowROI]
  exact List.mem_cons_self _ _

/-- C3 counterexample: a municipality cell holding markup reaches the
display frame verbatim — it is not HTML-escaped, contradicting the claim
that all data-derived text except the two injected fragments is escaped. -/
theorem C3_counterexample :
    (run [htmlRow] fsOpen).displayFrame.map (fun d => d.municipality) =
      ["<b>x</b>"] ∧
    htmlEscape "<b>x</b>" ≠ "<b>x</b>" := by
  constructor
  · rw [run_single_fsOpen htmlRow numericMask_fsOpen_htmlRow]
    rfl
  · decide

/-- C3 (amended): `to_html(escape=False)` serializes every cell verbatim:
the cell serialization is the identity, and each row fragment embeds the
raw municipality string contiguously — so the two deliberately injected
fragments render as markup, but so does any markup contained in data
text. -/
theorem C3_no_escaping (d : DisplayRow) :
    serializeCell d.municipality = d.municipality ∧
    ∃ pre post : String, rowHtml d = pre ++ d.municipality ++ post := by
  refine ⟨rfl,
    "<tr>" ++ td d.roi ++ td d.price ++ td (toString d.size) ++
      td (toString d.rooms) ++ td (toString d.bathrooms) ++
      td d.restaurantsMark ++ td d.shopsMark ++ td (toString d.av_rent) ++
      td (toString d.airport_distance) ++ "<td>",
    "</td>" ++ td d.link ++ td (toString d.propertyCode) ++ "</tr>", ?_⟩
  simp only [rowHtml, td, serializeCell, String.append_assoc]

/-- On integer-friendly data every row passes the numeric mask of the
derived default filter state: the truncated/rounded default bounds
coincide with the column extrema. -/
theorem numericMask_default (r0 : Row) (rs : List Row)
    (hint : ∀ x ∈ r0 :: rs, IntegerFriendly x) (fs : FilterState)
    (hok : deriveDefaults (r0 :: rs) = Except.ok fs)
    (x : Row) (hx : x ∈ r0 :: rs) :
    numericMask fs x = true := by
  simp only [deriveDefaults, Except.ok.injEq] at hok
  subst hok
  rw [numericMask_iff]
  refine ⟨?_, ?_, ?_, ?_, ?_, ?_, ?_, ?_, ?_⟩
  · show ((pyTrunc (colMin (fun y => y.price) r0 rs / 1000) : ℤ) : ℚ) * 1000 ≤ x.price
    obtain ⟨w, hw, hm⟩ := colMin_mem (fun y => y.price) r0 rs
    obtain ⟨hpd, hdvd, -, -, -, -, -, -, -, -⟩ := hint w hw
    have hle := colMin_le (fun y => y.price) r0 rs x hx
    rw [hm] at hle
    rw [hm, pyTrunc_div1000 w.price hpd hdvd]
    exact hle
  · show x.price ≤ ((pyTrunc (colMax (fun y => y.price) r0 rs / 1000) : ℤ) : ℚ) * 1000
    obtain ⟨w, hw, hm⟩ := colMax_mem (fun y => y.price) r0 rs
    obtain ⟨hpd, hdvd, -, -, -, -, -, -, -, -⟩ := hint w hw
    have hge := colMax_ge (fun y => y.price) r0 rs x hx
    rw [hm] at hge
    rw [hm, pyTrunc_div1000 w.price hpd hdvd]
    exact hge
  · show ((pyTrunc (colMin (fun y => y.size) r0 rs) : ℤ) : ℚ) ≤ x.size
    obtain ⟨w, hw, hm⟩ := colMin_mem (fun y => y.size) r0 rs
    obtain ⟨-, -, -, hsd, -, -, -, -, -, -⟩ := hint w hw
    have hle := colMin_le (fun y => y.size) r0 rs x hx
    rw [hm] at hle
    rw [hm, pyTrunc_den_one w.size hsd]
    exact hle
  · show x.size ≤ ((pyTrunc (colMax (fun y => y.size) r0 rs) : ℤ) : ℚ)
    obtain ⟨w, hw, hm⟩ := colMax_mem (fun y => y.size) r0 rs
    obtain ⟨-, -, -, hsd, -, -, -, -, -, -⟩ := hint w hw
    have hge := colMax_ge (fun y => y.size) r0 rs x hx
    rw [hm] at hge
    rw [hm, pyTrunc_den_one w.size hsd]
    exact hge
  · show x.airport_distance ≤
      ((pyTrunc (colMax (fun y => y.airport_distance) r0 rs) : ℤ) : ℚ)
    obtain ⟨w, hw, hm⟩ := colMax_mem (fun y => y.airport_distance) r0 rs
    obtain ⟨-, -, -, -, -, had, -, -, -, -⟩ := hint w hw
    have hge := colMax_ge (fun y => y.airport_distance) r0 rs x hx
    rw [hm] at hge
    rw [hm, pyTrunc_den_one w.airport_distance had]
    exact hge
  · show ((pyTrunc (colMin (fun y => y.av_rent) r0 rs) : ℤ) : ℚ) ≤ x.av_rent
    obtain ⟨w, hw, hm⟩ := colMin_mem (fun y => y.av_rent) r0 rs
    obtain ⟨-, -, -, -, -, -, -, hrd, -, -⟩ := hint w hw
    have hle := colMin_le (fun y => y.av_rent) r0 rs x hx
    rw [hm] at hle
    rw [hm, pyTrunc_den_one w.av_rent hrd]
    exact hle
  · show x.av_rent ≤ ((pyTrunc (colMax (fun y => y.av_rent) r0 rs) : ℤ) : ℚ)
    obtain ⟨w, hw, hm⟩ := colMax_mem (fun y => y.av_rent) r0 rs
    obtain ⟨-, -, -, -, -, -, -, hrd, -, -⟩ := hint w hw
    have hge := colMax_ge (fun y => y.av_rent) r0 rs x hx
    rw [hm] at hge
    rw [hm, pyTrunc_den_one w.av_rent hrd]
    exact hge
  · show round1 (colMin (fun y => y.roi) r0 rs) ≤ x.roi
    obtain ⟨w, hw, hm⟩ := colMin_mem (fun y => y.roi) r0 rs
    obtain ⟨-, -, -, -, -, -, -, -, -, hroid⟩ := hint w hw
    have hle := colMin_le (fun y => y.roi) r0 rs x hx
    rw [hm] at hle
    rw [hm, round1_den_one w.roi hroid]
    exact hle
  · show x.roi ≤ round1 (colMax (fun y => y.roi) r0 rs)
    obtain ⟨w, hw, hm⟩ := colMax_mem (fun y => y.roi) r0 rs
    obtain ⟨-, -, -, -, -, -, -, -, -, hroid⟩ := hint w hw
    have hge := colMax_ge (fun y => y.roi) r0 rs x hx
    rw [hm] at hge
    rw [hm, round1_den_one w.roi hroid]
    exact hge

/-- C2 (amended): with every filter at its derived default, the result is
exactly the rows whose property type lies in the default property-type
selection (the whole dataset when that selection is empty) — provided the
data is integer-friendly, so that the truncated/rounded numeric defaults
cover every row.  Rows of other property types are excluded, so the
original "default returns the full dataset" fails in general. -/
theorem C2_default_domain_coverage (data : List Row) (fs : FilterState)
    (hint : ∀ r ∈ data, IntegerFriendly r)
    (hok : deriveDefaults data = Except.ok fs) :
    applyFilters data fs =
      data.filter (fun r => selMask fs.property_type_selected r.propertyType) := by
  cases data with
  | nil => simp [deriveDefaults] at hok
  | cons r0 rs =>
      have hnum : ∀ x ∈ r0 :: rs, numericMask fs x = true :=
        fun x hx => numericMask_default r0 rs hint fs hok x hx
      have hroom : fs.rooms_selected = [] := by
        simp only [deriveDefaults, Except.ok.injEq] at hok
        rw [← hok]
      have hmun : fs.municipality_selected = [] := by
        simp only [deriveDefaults, Except.ok.injEq] at hok
        rw [← hok]
      have hres : fs.restaurants_filter = TriState.All := by
        simp only [deriveDefaults, Except.ok.injEq] at hok
        rw [← hok]
      have hhos : fs.hospitals_filter = TriState.All := by
        simp only [deriveDefaults, Except.ok.injEq] at hok
        rw [← hok]
      have hcli : fs.clinics_filter = TriState.All := by
        simp only [deriveDefaults, Except.ok.injEq] at hok
        rw [← hok]
      have hsho : fs.shops_filter = TriState.All := by
        simp only [deriveDefaults, Except.ok.injEq] at hok
        rw [← hok]
      have hdef : applyFilters (r0 :: rs) fs =
          applySel fs.property_type_selected (fun r => r.propertyType)
            ((r0 :: rs).filter (numericMask fs)) := by
        simp [applyFilters, applySel, applyTri, hroom, hmun, hres, hhos, hcli, hsho]
      rw [hdef, applySel_eq_filter, List.filter_eq_self.mpr hnum]

theorem integerFriendly_flatRow : IntegerFriendly flatRow := by
  unfold IntegerFriendly
  refine ⟨rfl, by decide, by norm_num [flatRow], rfl, by norm_num [flatRow], rfl,
    by norm_num [flatRow], rfl, by norm_num [flatRow], ?_⟩
  show ((5 : ℚ) * 10).den = 1
  norm_num [Rat.den_eq_one_iff]

theorem integerFriendly_houseRow : IntegerFriendly houseRow := by
  unfold IntegerFriendly
  refine ⟨rfl, by decide, by norm_num [houseRow], rfl, by norm_num [houseRow], rfl,
    by norm_num [houseRow], rfl, by norm_num [houseRow], ?_⟩
  show ((6 : ℚ) * 10).den = 1
  norm_num [Rat.den_eq_one_iff]

/-- The defaults the script derives for the two-type dataset, computed. -/
theorem deriveDefaults_twoTypeData :
    deriveDefaults twoTypeData = Except.ok defaultFS2 := by
  have hp1 : colMin (fun x => x.price) flatRow [houseRow] = 100000 := by
    norm_num [colMin, foldlMin, flatRow, houseRow, min_def]
  have hp2 : colMax (fun x => x.price) flatRow [houseRow] = 200000 := by
    norm_num [colMax, foldlMax, flatRow, houseRow, max_def]
  have hs1 : colMin (fun x => x.size) flatRow [houseRow] = 80 := by
    norm_num [colMin, foldlMin, flatRow, houseRow, min_def]
  have hs2 : colMax (fun x => x.size) flatRow [houseRow] = 120 := by
    norm_num [colMax, foldlMax, flatRow, houseRow, max_def]
  have ha2 : colMax (fun x => x.airport_distance) flatRow [houseRow] = 12 := by
    norm_num [colMax, foldlMax, flatRow, houseRow, max_def]
  have hr1 : colMin (fun x => x.av_rent) flatRow [houseRow] = 50 := by
    norm_num [colMin, foldlMin, flatRow, houseRow, min_def]
  have hr2 : colMax (fun x => x.av_rent) flatRow [houseRow] = 60 := by
    norm_num [colMax, foldlMax, flatRow, houseRow, max_def]
  have hroi1 : colMin (fun x => x.roi) flatRow [houseRow] = 5 := by
    norm_num [colMin, foldlMin, flatRow, houseRow, min_def]
  have hroi2 : colMax (fun x => x.roi) flatRow [houseRow] = 6 := by
    norm_num [colMax, foldlMax, flatRow, houseRow, max_def]
  have hpt : valid_defaults (flatRow :: [houseRow]) = ["flat"] := by decide
  show deriveDefaults (flatRow :: [houseRow]) = Except.ok defaultFS2
  simp only [deriveDefaults, hp1, hp2, hs1, hs2, ha2, hr1, hr2, hroi1, hroi2, hpt,
    Except.ok.injEq]
  norm_num [pyTrunc, round1, roundHalfEven, defaultFS2, FilterState.mk.injEq,
    Int.tdiv_one]

/-- C2 counterexample: for the dataset with property types {flat, house},
the derived default state keeps only the flat row — the default result is
not the full dataset. -/
theorem C2_counterexample :
    deriveDefaults twoTypeData = Except.ok defaultFS2 ∧
    applyFilters twoTypeData defaultFS2 = [flatRow] ∧
    [flatRow] ≠ twoTypeData := by
  refine ⟨deriveDefaults_twoTypeData, ?_, by decide⟩
  have hf : numericMask defaultFS2 flatRow = true := by
    rw [numericMask_iff]
    norm_num [defaultFS2, flatRow]
  have hh : numericMask defaultFS2 houseRow = true := by
    rw [numericMask_iff]
    norm_num [defaultFS2, houseRow]
  have hfil : twoTypeData.filter (numericMask defaultFS2) = twoTypeData := by
    rw [List.filter_eq_self]
    intro a ha
    simp only [twoTypeData, List.mem_cons, List.not_mem_nil, or_false] at ha
    rcases ha with rfl | rfl
    · exact hf
    · exact hh
  have hdef : applyFilters twoTypeData defaultFS2 =
      applySel ["flat"] (fun r => r.propertyType)
        (twoTypeData.filter (numericMask defaultFS2)) := rfl
  rw [hdef, hfil]
  rfl

/-- C2 witness: the amended statement instantiated on the two-type
dataset with its derived defaults. -/
theorem C2_default_domain_coverage_witness :
    (∀ r ∈ twoTypeData, IntegerFriendly r) ∧
    deriveDefaults twoTypeData = Except.ok defaultFS2 ∧
    applyFilters twoTypeData defaultFS2 =
      twoTypeData.filter
        (fun r => selMask defaultFS2.property_type_selected r.propertyType) := by
  have hint : ∀ r ∈ twoTypeData, IntegerFriendly r := by
    intro r hr
    simp only [twoTypeData, List.mem_cons, List.not_mem_nil, or_false] at hr
    rcases hr with rfl | rfl
    · exact integerFriendly_flatRow
    · exact integerFriendly_houseRow
  exact ⟨hint, deriveDefaults_twoTypeData,
    C2_default_domain_coverage twoTypeData defaultFS2 hint deriveDefaults_twoTypeData⟩

end Table12
